import Mathlib

/-!
Verification development for the cafe-qr booking form
(`src/pages/BookingForm.jsx`): a shallow embedding of the dynamic
form-to-validation-schema compiler (`generateZodSchema`), the field-loading
effect (`loadFormFields`) and the submission handler (`onSubmit`), together
with theorems checking the claims of the specification about them.
-/

namespace CafeQR

/-- A runtime form value as delivered to the compiled validator: JavaScript
`undefined`, a string, or a number.  (react-hook-form delivers strings or
`undefined`; numbers can reach the validator through programmatic use.) -/
inductive Value where
  | undef : Value
  | str : String → Value
  | num : Int → Value
deriving DecidableEq, Repr

/-- JavaScript truthiness of a form value (`data.email` test in `onSubmit`):
`undefined` and the empty string and `0` are falsy, everything else truthy. -/
def jsTruthy : Value → Bool
  | Value.undef => false
  | Value.str s => s ≠ ""
  | Value.num n => n ≠ 0

/-- A field definition as consumed by `generateZodSchema`: `name`, `label`,
`type` (a string switched on), `required`, optional numeric bounds `min` and
`max`, and optional `minLength`.  `id` is the opaque display key. -/
structure Field where
  id : Nat
  name : String
  label : String
  type : String
  required : Bool
  min : Option Int := none
  max : Option Int := none
  minLength : Option Nat := none
deriving DecidableEq, Repr

/-- The host-provided predicates the compiled rules delegate to: the zod email
pattern and JavaScript `new Date(val)` parse validity
(`!isNaN(new Date(val).getTime())`).  The compiler only plumbs these through,
so theorems quantify over them. -/
structure JsEnv where
  emailValid : String → Bool
  dateValid : String → Bool

/-- `field.minLength || 10` from the `tel` case: `undefined` and `0` are
falsy, so both fall back to `10`. -/
def telMinLength : Option Nat → Nat
  | some m => if m = 0 then 10 else m
  | none => 10

/-- The chained `.min` / `.max` checks of the `number` case: each bound is
installed only when `typeof field.min` is the number type; the message of
the first violated check is reported. -/
def numberBoundsCheck (f : Field) (n : Int) : Option String :=
  let minErr : Option String :=
    match f.min with
    | some m => if n < m then some (f.label ++ " must be at least " ++ toString m) else none
    | none => none
  match minErr with
  | some e => some e
  | none =>
    match f.max with
    | some m => if m < n then some (f.label ++ " must be at most " ++ toString m) else none
    | none => none

/-- The base rule built by the `switch (field.type)` of `generateZodSchema`,
before the required/optional wrapping.  `none` is acceptance, `some msg` the
first violated message.  String-typed rules reject `undefined` with the
default zod "Required" message and numbers with its default type mismatch; the
`number` rule carries the configured `required_error` and
`invalid_type_error`. -/
def fieldRule (env : JsEnv) (f : Field) (v : Value) : Option String :=
  if f.type = "email" then
    match v with
    | Value.undef => some "Required"
    | Value.num _ => some "Expected string, received number"
    | Value.str s => if env.emailValid s then none else some (f.label ++ " must be a valid email")
  else if f.type = "number" then
    match v with
    | Value.undef => some (f.label ++ " is required")
    | Value.str _ => some (f.label ++ " must be a number")
    | Value.num n => numberBoundsCheck f n
  else if f.type = "date" ∨ f.type = "datetime-local" then
    match v with
    | Value.undef => some "Required"
    | Value.num _ => some "Expected string, received number"
    | Value.str s => if env.dateValid s then none else some (f.label ++ " must be a valid date")
  else if f.type = "tel" then
    match v with
    | Value.undef => some "Required"
    | Value.num _ => some "Expected string, received number"
    | Value.str s =>
      if telMinLength f.minLength ≤ s.length then none
      else some (f.label ++ " must be at least " ++ toString (telMinLength f.minLength) ++ " characters")
  else
    match v with
    | Value.undef => some "Required"
    | Value.num _ => some "Expected string, received number"
    | Value.str s =>
      match f.minLength with
      | some m =>
        if m ≠ 0 ∧ s.length < m then
          some (f.label ++ " must be at least " ++ toString m ++ " characters")
        else none
      | none => none

/-- One compiled per-field rule after the required/optional wrapping of
line 55: `field.required ? fieldSchema : fieldSchema.optional()`.  The zod
`.optional()` wrapper accepts exactly `undefined` and otherwise delegates to the
base rule. -/
def validateField (env : JsEnv) (f : Field) (v : Value) : Option String :=
  if f.required then fieldRule env f v
  else
    match v with
    | Value.undef => none
    | _ => fieldRule env f v

/-- JavaScript object-property assignment `schemaObject[field.name] = …`:
an existing key is overwritten in place, a new key is appended. -/
def insertLWW (acc : List (String × (Value → Option String))) (k : String)
    (r : Value → Option String) : List (String × (Value → Option String)) :=
  if acc.any (fun p => p.1 = k) then
    acc.map (fun p => if p.1 = k then (k, r) else p)
  else acc ++ [(k, r)]

/-- `generateZodSchema`: fold the field list into the schema object, each
field contributing its wrapped rule under its `name`. -/
def generateZodSchema (env : JsEnv) (fields : List Field) :
    List (String × (Value → Option String)) :=
  fields.foldl (fun acc f => insertLWW acc f.name (validateField env f)) []

/-- `z.object(schemaObject).parse` on an input record: the rule of each key
is evaluated at the value the record holds for that key (`undefined` when absent);
the result is the per-field violation mapping, empty on success. -/
def validateRecord (schema : List (String × (Value → Option String)))
    (rec : String → Value) : List (String × String) :=
  schema.filterMap (fun p => (p.2 (rec p.1)).map (fun m => (p.1, m)))

/-! ## The field-loading effect (`loadFormFields`, lines 71-113) -/

/-- The component state touched by `loadFormFields`: the field list (initially
`[]`), the load error (initially `null`), and the loading flag. -/
structure LoadState where
  formFields : List Field
  error : Option String
  isLoading : Bool
deriving DecidableEq, Repr

/-- The hardcoded default field list substituted when no settings are found
(lines 79-102). -/
def defaultFields : List Field :=
  [ { id := 1, name := "fullName", label := "Full Name", type := "text",
      required := true, minLength := some 2 },
    { id := 2, name := "email", label := "Email", type := "email",
      required := true },
    { id := 3, name := "date", label := "Date & Time", type := "datetime-local",
      required := true } ]

/-- The outcome of `getFormFields()`: an exception, or a settings value that
is `null`/`undefined` or an object whose `fields` property may be absent.
`settings?.fields` is truthy exactly in the `Except.ok (some (some _))`
case (an array, even empty, is truthy). -/
def FetchResult : Type :=
  Except Unit (Option (Option (List Field)))

/-- `loadFormFields`: on success with a truthy `settings?.fields` install
that list; otherwise install `defaultFields`; on a thrown error set the
load-failure message and leave the field list at its initial `[]`; in all
cases clear `isLoading` in the `finally`. -/
def loadFormFields (fetch : FetchResult) : LoadState :=
  match fetch with
  | Except.ok (some (some l)) => { formFields := l, error := none, isLoading := false }
  | Except.ok (some none) => { formFields := defaultFields, error := none, isLoading := false }
  | Except.ok none => { formFields := defaultFields, error := none, isLoading := false }
  | Except.error _ =>
    { formFields := [],
      error := some "Failed to load form. Please try again later.",
      isLoading := false }

/-! ## The submission handler (`onSubmit`, lines 119-144) -/

/-- The component state touched by `onSubmit`. A non-null `bookingId` is the
Confirmed rendering (line 170), a non-null `error` with null `bookingId`
is the Failed rendering, `emailStatus` is the displayed notification
status. -/
structure FormState where
  bookingId : Option String
  error : Option String
  isSubmitting : Bool
  emailStatus : Option String
deriving DecidableEq, Repr

/-- A thrown store error: `error.message` may be absent (or empty, which is
equally falsy in `error.message || …`). -/
structure JsError where
  message : Option String
deriving DecidableEq, Repr

/-- The expression `error.message || fallback` of line 140, where fallback
is the generic creation-failure message. -/
def errorMessageOrFallback (e : JsError) : String :=
  match e.message with
  | some s => if s = "" then "Failed to create booking. Please try again." else s
  | none => "Failed to create booking. Please try again."

/-- The result of one `onSubmit` run: the final component state together
with how many times `createBooking` and `sendBookingEmail` were invoked
during the run. -/
structure SubmitOutcome where
  state : FormState
  createCalls : Nat
  notifyCalls : Nat
deriving DecidableEq, Repr

/-- `onSubmit(data)`: clear `error` and `emailStatus`, raise `isSubmitting`,
call `createBooking`; on success, if `data.email` is truthy call
`sendBookingEmail` and record its status (a notifier failure is caught and
only downgrades the status), then set `bookingId`; on a `createBooking`
error set `error` from the message; finally clear `isSubmitting`.
`email` is the `email` value of the submitted record; `createResult` and
`notifyResult` are the outcomes of the two collaborators for this run. -/
def onSubmit (st : FormState) (email : Value) (createResult : Except JsError String)
    (notifyResult : Except Unit Unit) : SubmitOutcome :=
  let st0 : FormState := { st with error := none, isSubmitting := true, emailStatus := none }
  match createResult with
  | Except.ok id =>
    let st1 : FormState :=
      if jsTruthy email then
        match notifyResult with
        | Except.ok _ => { st0 with emailStatus := some "Confirmation email sent!" }
        | Except.error _ =>
          { st0 with emailStatus := some "Booking confirmed but email delivery failed." }
      else st0
    { state := { st1 with bookingId := some id, isSubmitting := false },
      createCalls := 1,
      notifyCalls := if jsTruthy email then 1 else 0 }
  | Except.error e =>
    { state := { st0 with error := some (errorMessageOrFallback e), isSubmitting := false },
      createCalls := 1,
      notifyCalls := 0 }

/-- The `disabled` attribute of the submit control (line 196): it is the only
re-entrancy protection; `onSubmit` itself never consults `isSubmitting`. -/
def submitButtonDisabled (st : FormState) : Bool :=
  st.isSubmitting

/-! ## Helper facts -/

/-- A concrete host environment for evaluating compiled rules at specific
inputs; the theorems about email- and date-typed rules quantify over the
environment, so nothing below depends on these sample predicates. -/
def sampleEnv : JsEnv where
  emailValid s := s.contains '@'
  dateValid s := s ≠ "" && s.all fun c => c.isDigit || c = '-' || c = ':' || c = 'T'

/-- The message a required-but-absent value produces: the configured
`required_error` for `number` fields, the zod default otherwise. -/
def requiredMessage (f : Field) : String :=
  if f.type = "number" then f.label ++ " is required" else "Required"

/-- A present string value always reaches the base rule: `.optional()` only
short-circuits on `undefined`. -/
theorem validateField_str (env : JsEnv) (f : Field) (s : String) :
    validateField env f (Value.str s) = fieldRule env f (Value.str s) := by
  by_cases h : f.required <;> simp [validateField, h]

/-- A present numeric value always reaches the base rule. -/
theorem validateField_num (env : JsEnv) (f : Field) (n : Int) :
    validateField env f (Value.num n) = fieldRule env f (Value.num n) := by
  by_cases h : f.required <;> simp [validateField, h]

/-- Appending suffixes of different lengths to the same prefix yields
different strings. -/
theorem append_ne_of_length_ne (s a b : String) (h : a.length ≠ b.length) :
    s ++ a ≠ s ++ b := by
  intro hc
  apply h
  have hl := congrArg String.length hc
  simp only [String.length_append] at hl
  omega

/-- Key list of a single object-property assignment: unchanged when the key
already exists, extended by the key otherwise. -/
theorem insertLWW_keys (acc : List (String × (Value → Option String))) (k : String)
    (r : Value → Option String) :
    (insertLWW acc k r).map Prod.fst =
      if k ∈ acc.map Prod.fst then acc.map Prod.fst else acc.map Prod.fst ++ [k] := by
  unfold insertLWW
  by_cases h : acc.any (fun p => p.1 = k)
  · have hm : k ∈ acc.map Prod.fst := by
      rcases List.any_eq_true.mp h with ⟨p, hp, he⟩
      exact List.mem_map.mpr ⟨p, hp, (by simpa using he)⟩
    simp only [h, if_true, hm, List.map_map]
    apply List.map_congr_left
    intro p _
    by_cases hpk : p.1 = k <;> simp [hpk]
  · have hm : k ∉ acc.map Prod.fst := by
      intro hk
      apply h
      rcases List.mem_map.mp hk with ⟨p, hp, he⟩
      exact List.any_eq_true.mpr ⟨p, hp, by simp [he]⟩
    simp [h, hm]

/-- Folding a field list with pairwise-distinct names, all fresh for the
accumulator, appends exactly those names to the key list. -/
theorem generateZodSchema_keys_aux (env : JsEnv) (fields : List Field) :
    ∀ acc : List (String × (Value → Option String)),
      (fields.map Field.name).Nodup →
      (∀ f ∈ fields, f.name ∉ acc.map Prod.fst) →
      (fields.foldl (fun a f => insertLWW a f.name (validateField env f)) acc).map Prod.fst
        = acc.map Prod.fst ++ fields.map Field.name := by
  induction fields with
  | nil => intro acc _ _; simp
  | cons f fs ih =>
    intro acc hnd hfresh
    have hknew : f.name ∉ acc.map Prod.fst := hfresh f (by simp)
    have hkeys : (insertLWW acc f.name (validateField env f)).map Prod.fst
        = acc.map Prod.fst ++ [f.name] := by
      rw [insertLWW_keys]
      simp [hknew]
    have hnd' : (fs.map Field.name).Nodup := (List.nodup_cons.mp (by simpa using hnd)).2
    have hhead : f.name ∉ fs.map Field.name := (List.nodup_cons.mp (by simpa using hnd)).1
    have hfresh' : ∀ g ∈ fs, g.name ∉ (insertLWW acc f.name (validateField env f)).map Prod.fst := by
      intro g hg
      rw [hkeys]
      intro hmem
      rcases List.mem_append.mp hmem with hin | hin
      · exact hfresh g (List.mem_cons_of_mem _ hg) hin
      · have : g.name = f.name := by simpa using hin
        exact hhead (this ▸ List.mem_map.mpr ⟨g, hg, rfl⟩)
    rw [List.foldl_cons, ih _ hnd' hfresh', hkeys]
    simp

/-! ## Claims -/

/-- C1: whenever `createBooking` succeeds with identifier `id` and the
submitted record carries a non-empty email string, a notifier failure still
ends the session Confirmed: `bookingId` is set to `id` (never unset), no
error is set (never the Failed rendering), and the notification status is
the delivery-failed message. -/
theorem submit_notifier_failure_still_confirmed (st : FormState) (s id : String)
    (hs : s ≠ "") :
    (onSubmit st (Value.str s) (Except.ok id) (Except.error ())).state.bookingId = some id ∧
    (onSubmit st (Value.str s) (Except.ok id) (Except.error ())).state.error = none ∧
    (onSubmit st (Value.str s) (Except.ok id) (Except.error ())).state.emailStatus =
      some "Booking confirmed but email delivery failed." := by
  simp [onSubmit, jsTruthy, hs]

/-- C1 witness at a concrete submission. -/
theorem submit_notifier_failure_still_confirmed_witness :
    ("a@b.com" : String) ≠ "" ∧
    ((onSubmit ⟨none, none, false, none⟩ (Value.str "a@b.com") (Except.ok "B123")
        (Except.error ())).state.bookingId = some "B123" ∧
     (onSubmit ⟨none, none, false, none⟩ (Value.str "a@b.com") (Except.ok "B123")
        (Except.error ())).state.error = none ∧
     (onSubmit ⟨none, none, false, none⟩ (Value.str "a@b.com") (Except.ok "B123")
        (Except.error ())).state.emailStatus =
       some "Booking confirmed but email delivery failed.") :=
  ⟨by decide,
   submit_notifier_failure_still_confirmed ⟨none, none, false, none⟩ "a@b.com" "B123"
     (by decide)⟩

/-- C2: a fetch that resolves with no field configuration (`null` settings or
settings without a `fields` value) yields the Ready state with the default
3-field list (full name: text, required, minLength 2; email: email,
required; date and time: the datetime input type, required) and no error;
a fetch that fails yields the Failed state with the load-failure message
and the empty initial field list, not the defaults. -/
theorem load_fields_absence_defaults_error_fails :
    loadFormFields (Except.ok none) =
      { formFields :=
          [⟨1, "fullName", "Full Name", "text", true, none, none, some 2⟩,
           ⟨2, "email", "Email", "email", true, none, none, none⟩,
           ⟨3, "date", "Date & Time", "datetime-local", true, none, none, none⟩],
        error := none, isLoading := false } ∧
    loadFormFields (Except.ok (some none)) = loadFormFields (Except.ok none) ∧
    loadFormFields (Except.error ()) =
      { formFields := [],
        error := some "Failed to load form. Please try again later.",
        isLoading := false } ∧
    (loadFormFields (Except.error ())).formFields ≠ defaultFields := by
  decide

/-- C3: whenever `createBooking` fails, the session ends Failed — the error
is the message the store raised (or the generic fallback), `bookingId`
stays unset — and the notifier is never called in that run
(`notifyCalls = 0`): the notify step is only reached after a successful
creation. -/
theorem submit_create_failure_no_notify (st : FormState) (email : Value)
    (e : JsError) (nres : Except Unit Unit) (h : st.bookingId = none) :
    (onSubmit st email (Except.error e) nres).state.bookingId = none ∧
    (onSubmit st email (Except.error e) nres).state.error =
      some (errorMessageOrFallback e) ∧
    (onSubmit st email (Except.error e) nres).notifyCalls = 0 := by
  simp [onSubmit, h]

/-- C3 witness at a concrete failing submission. -/
theorem submit_create_failure_no_notify_witness :
    (⟨none, none, false, none⟩ : FormState).bookingId = none ∧
    ((onSubmit ⟨none, none, false, none⟩ (Value.str "a@b.com")
        (Except.error ⟨some "quota exceeded"⟩) (Except.ok ())).state.bookingId = none ∧
     (onSubmit ⟨none, none, false, none⟩ (Value.str "a@b.com")
        (Except.error ⟨some "quota exceeded"⟩) (Except.ok ())).state.error =
       some (errorMessageOrFallback ⟨some "quota exceeded"⟩) ∧
     (onSubmit ⟨none, none, false, none⟩ (Value.str "a@b.com")
        (Except.error ⟨some "quota exceeded"⟩) (Except.ok ())).notifyCalls = 0) :=
  ⟨rfl,
   submit_create_failure_no_notify ⟨none, none, false, none⟩ (Value.str "a@b.com")
     ⟨some "quota exceeded"⟩ (Except.ok ()) rfl⟩

/-- C4 counterexample: the claim fails three ways on the code.  A
non-required `tel` field with the empty string yields a violation (the
empty string is not short-circuited to valid); a required `text` field
with the empty string yields no violation (the empty string is a present
string, not an absence); a required `text` field with an absent value is
rejected with the default "Required" message, not with
"Full Name is required". -/
theorem required_empty_wrapping_counterexample :
    (⟨1, "phone", "Phone", "tel", false, none, none, none⟩ : Field).required = false ∧
    validateField sampleEnv ⟨1, "phone", "Phone", "tel", false, none, none, none⟩
      (Value.str "") = some "Phone must be at least 10 characters" ∧
    (⟨2, "fullName", "Full Name", "text", true, none, none, none⟩ : Field).required = true ∧
    validateField sampleEnv ⟨2, "fullName", "Full Name", "text", true, none, none, none⟩
      (Value.str "") = none ∧
    validateField sampleEnv ⟨2, "fullName", "Full Name", "text", true, none, none, none⟩
      Value.undef = some "Required" ∧
    some "Required" ≠ some ("Full Name" ++ " is required") := by
  decide

/-- C4 amended: only an absent (`undefined`) value is special-cased by the
required/optional wrapping.  A required field with an absent value yields a
violation — "{label} is required" for `number` fields (the configured
`required_error`), the default "Required" otherwise; a non-required field
with an absent value yields no violation and the base rule is not
evaluated.  An empty string is not treated as absent: in both cases it is
passed to the base rule, so a required `text` field without `minLength`
accepts it while a non-required `tel` field rejects it. -/
theorem required_wrapping_absent_only (env : JsEnv) (f : Field) :
    validateField env f Value.undef =
      (if f.required then some (requiredMessage f) else none) ∧
    validateField env f (Value.str "") = fieldRule env f (Value.str "") := by
  refine ⟨?_, validateField_str env f ""⟩
  by_cases hr : f.required
  all_goals
    simp only [validateField, fieldRule, requiredMessage, hr, if_true, if_false,
      Bool.false_eq_true]
  all_goals (repeat' split) <;> simp_all

/-- C5 counterexample: a submit event processed while `isSubmitting` is
already true is not ignored by the handler itself: `createBooking` is still
called (one call in this run, not zero) and the run proceeds to the
Confirmed state, so only the disabled UI control prevents duplicate
creation. -/
theorem reentrant_submit_counterexample :
    (⟨none, none, true, none⟩ : FormState).isSubmitting = true ∧
    submitButtonDisabled ⟨none, none, true, none⟩ = true ∧
    (onSubmit ⟨none, none, true, none⟩ Value.undef (Except.ok "B123")
      (Except.ok ())).createCalls = 1 ∧
    (onSubmit ⟨none, none, true, none⟩ Value.undef (Except.ok "B123")
      (Except.ok ())).state.bookingId = some "B123" := by
  decide

/-- C5 amended: while Submitting the UI control is disabled, but the handler
performs no re-entrancy check of its own: every submit event it processes
performs exactly one `createBooking` call, even when `isSubmitting` is
already true. -/
theorem no_reentrancy_guard_in_handler (st : FormState) (email : Value)
    (cres : Except JsError String) (nres : Except Unit Unit)
    (h : st.isSubmitting = true) :
    submitButtonDisabled st = true ∧
    (onSubmit st email cres nres).createCalls = 1 := by
  refine ⟨h, ?_⟩
  cases cres <;> simp [onSubmit]

/-- C5 amended witness at a concrete re-entrant submission. -/
theorem no_reentrancy_guard_in_handler_witness :
    (⟨none, none, true, none⟩ : FormState).isSubmitting = true ∧
    (submitButtonDisabled ⟨none, none, true, none⟩ = true ∧
     (onSubmit ⟨none, none, true, none⟩ (Value.str "a@b.com") (Except.ok "B456")
       (Except.ok ())).createCalls = 1) :=
  ⟨rfl,
   no_reentrancy_guard_in_handler ⟨none, none, true, none⟩ (Value.str "a@b.com")
     (Except.ok "B456") (Except.ok ()) rfl⟩

/-- C6: for every date-typed field (the `date` and datetime input types, the
two calendar members of the type set) the compiled rule accepts a present
string exactly when the host date parse finds it valid, and otherwise
rejects it with the valid-date message — for every host parse predicate. -/
theorem date_rule_accepts_iff_parses (env : JsEnv) (f : Field) (s : String)
    (h : f.type = "date" ∨ f.type = "datetime-local") :
    validateField env f (Value.str s) =
      (if env.dateValid s then none else some (f.label ++ " must be a valid date")) := by
  rw [validateField_str]
  rcases h with h | h <;> simp [fieldRule, h]

/-- C6 witness at a concrete date field and input. -/
theorem date_rule_accepts_iff_parses_witness :
    (("date" : String) = "date" ∨ ("date" : String) = "datetime-local") ∧
    validateField sampleEnv ⟨4, "when", "When", "date", true, none, none, none⟩
      (Value.str "2026-10-12") =
      (if sampleEnv.dateValid "2026-10-12" then none
       else some ("When" ++ " must be a valid date")) :=
  ⟨Or.inl rfl,
   date_rule_accepts_iff_parses sampleEnv ⟨4, "when", "When", "date", true, none, none, none⟩
     "2026-10-12" (Or.inl rfl)⟩

/-- C7: a `number` field rejects a present non-numeric value with the
type-mismatch message, which differs from both range messages; with
`min = 5` and `max = 10` the value 3 yields the lower-bound violation, 7
validates, and 12 yields the upper-bound violation. -/
theorem number_rule_messages_and_bounds (env : JsEnv) (f : Field) (s : String)
    (ht : f.type = "number") (hmin : f.min = some 5) (hmax : f.max = some 10) :
    validateField env f (Value.str s) = some (f.label ++ " must be a number") ∧
    f.label ++ " must be a number" ≠ f.label ++ " must be at least 5" ∧
    f.label ++ " must be a number" ≠ f.label ++ " must be at most 10" ∧
    validateField env f (Value.num 3) = some (f.label ++ " must be at least 5") ∧
    validateField env f (Value.num 7) = none ∧
    validateField env f (Value.num 12) = some (f.label ++ " must be at most 10") := by
  have h5 : (" must be at least " ++ toString (5 : Int)) = " must be at least 5" := by decide
  have h10 : (" must be at most " ++ toString (10 : Int)) = " must be at most 10" := by decide
  refine ⟨?_, append_ne_of_length_ne _ _ _ (by decide),
    append_ne_of_length_ne _ _ _ (by decide), ?_, ?_, ?_⟩
  · rw [validateField_str]
    simp [fieldRule, ht]
  · rw [validateField_num]
    simp [fieldRule, ht, numberBoundsCheck, hmin, hmax, String.append_assoc, h5]
  · rw [validateField_num]
    simp [fieldRule, ht, numberBoundsCheck, hmin, hmax]
  · rw [validateField_num]
    simp [fieldRule, ht, numberBoundsCheck, hmin, hmax, String.append_assoc, h10]

/-- C7 witness at a concrete guests-count field. -/
theorem number_rule_messages_and_bounds_witness :
    (⟨5, "guests", "Guests", "number", true, some 5, some 10, none⟩ : Field).type = "number" ∧
    (⟨5, "guests", "Guests", "number", true, some 5, some 10, none⟩ : Field).min = some 5 ∧
    (⟨5, "guests", "Guests", "number", true, some 5, some 10, none⟩ : Field).max = some 10 ∧
    (validateField sampleEnv ⟨5, "guests", "Guests", "number", true, some 5, some 10, none⟩
       (Value.str "abc") = some ("Guests" ++ " must be a number") ∧
     ("Guests" : String) ++ " must be a number" ≠ "Guests" ++ " must be at least 5" ∧
     ("Guests" : String) ++ " must be a number" ≠ "Guests" ++ " must be at most 10" ∧
     validateField sampleEnv ⟨5, "guests", "Guests", "number", true, some 5, some 10, none⟩
       (Value.num 3) = some ("Guests" ++ " must be at least 5") ∧
     validateField sampleEnv ⟨5, "guests", "Guests", "number", true, some 5, some 10, none⟩
       (Value.num 7) = none ∧
     validateField sampleEnv ⟨5, "guests", "Guests", "number", true, some 5, some 10, none⟩
       (Value.num 12) = some ("Guests" ++ " must be at most 10")) :=
  ⟨rfl, rfl, rfl,
   number_rule_messages_and_bounds sampleEnv
     ⟨5, "guests", "Guests", "number", true, some 5, some 10, none⟩ "abc" rfl rfl rfl⟩

/-- C8: a `tel` field with no `minLength` configured enforces the default
minimum length of 10 on every present string — in particular it rejects
any 5-character string and accepts any 10-character string. -/
theorem tel_rule_default_min_ten (env : JsEnv) (f : Field) (s : String)
    (ht : f.type = "tel") (hml : f.minLength = none) :
    validateField env f (Value.str s) =
      (if 10 ≤ s.length then none
       else some (f.label ++ " must be at least 10 characters")) := by
  have h10 : (" must be at least " ++ (toString (10 : Nat) ++ " characters")) =
      " must be at least 10 characters" := by decide
  rw [validateField_str]
  simp [fieldRule, ht, hml, telMinLength, String.append_assoc, h10]

/-- C8 witness: a 5-character string is rejected and a 10-character string
accepted by a concrete `tel` field. -/
theorem tel_rule_default_min_ten_witness :
    (⟨6, "phone", "Phone", "tel", true, none, none, none⟩ : Field).type = "tel" ∧
    (⟨6, "phone", "Phone", "tel", true, none, none, none⟩ : Field).minLength = none ∧
    validateField sampleEnv ⟨6, "phone", "Phone", "tel", true, none, none, none⟩
      (Value.str "12345") = some "Phone must be at least 10 characters" ∧
    validateField sampleEnv ⟨6, "phone", "Phone", "tel", true, none, none, none⟩
      (Value.str "0123456789") = none := by
  refine ⟨rfl, rfl, ?_, ?_⟩
  · have h := tel_rule_default_min_ten sampleEnv
      ⟨6, "phone", "Phone", "tel", true, none, none, none⟩ "12345" rfl rfl
    simpa using h
  · have h := tel_rule_default_min_ten sampleEnv
      ⟨6, "phone", "Phone", "tel", true, none, none, none⟩ "0123456789" rfl rfl
    simpa using h

/-- C9: for every field list with pairwise-distinct names, the compiled
schema has exactly those names as its key list; and the schema compiled
from the empty list accepts every input record. -/
theorem schema_keys_eq_field_names (env : JsEnv) (fields : List Field)
    (rec : String → Value) (h : (fields.map Field.name).Nodup) :
    (generateZodSchema env fields).map Prod.fst = fields.map Field.name ∧
    validateRecord (generateZodSchema env []) rec = [] := by
  refine ⟨?_, rfl⟩
  have := generateZodSchema_keys_aux env fields [] h (by simp)
  simpa [generateZodSchema] using this

/-- C9 witness at the default field list and an empty record. -/
theorem schema_keys_eq_field_names_witness :
    (defaultFields.map Field.name).Nodup ∧
    ((generateZodSchema sampleEnv defaultFields).map Prod.fst =
       defaultFields.map Field.name ∧
     validateRecord (generateZodSchema sampleEnv []) (fun _ => Value.undef) = []) :=
  ⟨by decide,
   schema_keys_eq_field_names sampleEnv defaultFields (fun _ => Value.undef) (by decide)⟩

/-- C10: a configured `minLength` of 0 behaves like an absent `minLength`,
because 0 is falsy: a `tel` field with `minLength = 0` enforces the default
minimum length of 10, and a field of any non-special type (`text` or
unrecognized) with `minLength = 0` applies no minimum-length constraint at
all. -/
theorem minlength_zero_like_absent (env : JsEnv) (f g : Field) (s t : String)
    (hft : f.type = "tel") (hfm : f.minLength = some 0)
    (hg1 : g.type ≠ "email") (hg2 : g.type ≠ "number") (hg3 : g.type ≠ "date")
    (hg4 : g.type ≠ "datetime-local") (hg5 : g.type ≠ "tel")
    (hgm : g.minLength = some 0) :
    validateField env f (Value.str s) =
      (if 10 ≤ s.length then none
       else some (f.label ++ " must be at least 10 characters")) ∧
    validateField env g (Value.str t) = none := by
  have h10 : (" must be at least " ++ (toString (10 : Nat) ++ " characters")) =
      " must be at least 10 characters" := by decide
  constructor
  · rw [validateField_str]
    simp [fieldRule, hft, hfm, telMinLength, String.append_assoc, h10]
  · rw [validateField_str]
    simp [fieldRule, hg1, hg2, hg3, hg4, hg5, hgm]

/-- C10 witness at concrete `tel` and `text` fields with `minLength = 0`. -/
theorem minlength_zero_like_absent_witness :
    (⟨7, "phone", "Phone", "tel", true, none, none, some 0⟩ : Field).type = "tel" ∧
    (⟨7, "phone", "Phone", "tel", true, none, none, some 0⟩ : Field).minLength = some 0 ∧
    (("text" : String) ≠ "email" ∧ ("text" : String) ≠ "number" ∧
     ("text" : String) ≠ "date" ∧ ("text" : String) ≠ "datetime-local" ∧
     ("text" : String) ≠ "tel" ∧
     (⟨8, "note", "Note", "text", true, none, none, some 0⟩ : Field).minLength = some 0) ∧
    (validateField sampleEnv ⟨7, "phone", "Phone", "tel", true, none, none, some 0⟩
       (Value.str "12345") =
       (if 10 ≤ ("12345" : String).length then none
        else some ("Phone" ++ " must be at least 10 characters")) ∧
     validateField sampleEnv ⟨8, "note", "Note", "text", true, none, none, some 0⟩
       (Value.str "") = none) :=
  ⟨rfl, rfl, ⟨by decide, by decide, by decide, by decide, by decide, rfl⟩,
   minlength_zero_like_absent sampleEnv
     ⟨7, "phone", "Phone", "tel", true, none, none, some 0⟩
     ⟨8, "note", "Note", "text", true, none, none, some 0⟩ "12345" ""
     rfl rfl (by decide) (by decide) (by decide) (by decide) (by decide) rfl⟩

end CafeQR
